import Mathlib

/-!
Verification of the `record-screen` repository: a shallow embedding of its
argument builder, URL builder, exit-status classification, stop/cancel
handling and rotation-metadata post-pass, together with theorems settling
the specification claims.

The repository contains several implementation variants:
* `IndexA` — the first variant in `index.js` (x11grab only, `-loglevel error`,
  benign stderr-warning exemption in the exit callback);
* `IndexB` — the second variant in `index.js` (option-driven builder,
  `buildURL`, SIGINT/255 exemption, rotation-metadata post-pass);
* `Part0` — the variant in `unnamed/part_000` (x11grab only, `-y` first,
  `-loglevel fatal`, SIGINT/255 exemption);
* `Part1` — the variant in `unnamed/part_001` (option-driven builder with a
  hard-coded `-loglevel fatal` prefix, no metadata pass);
* `SpecModel` — a builder modelled from the spec for the `videoFilter`
  feature, which is declared in the repository's type declarations and
  exercised by its tests but whose implementation file is not among the
  sources.

JavaScript conventions are modelled explicitly: absent object fields are
`Option.none`, JS truthiness on strings treats `""` as false and on numbers
treats `0` as false, and a template-literal interpolation of `undefined`
produces the string `"undefined"`.
-/

namespace RecordScreen

/-- JS truthiness of an optional string value: `undefined`/`null` and the
empty string are falsy. -/
def truthyS (x : Option String) : Bool :=
  match x with
  | none => false
  | some s => !s.isEmpty

/-- JS truthiness of an optional numeric value: `undefined`/`null` and `0`
are falsy. -/
def truthyI (x : Option Int) : Bool :=
  match x with
  | none => false
  | some n => n != 0

/-- JS `x || d` for an optional string: the value when truthy, else `d`. -/
def jsOrS (x : Option String) (d : String) : String :=
  if truthyS x then x.getD "" else d

/-- JS `x || d` for an optional number: the value when truthy, else `d`. -/
def jsOrI (x : Option Int) (d : Int) : Int :=
  if truthyI x then x.getD 0 else d

/-- JS template-literal interpolation of an optional string:
interpolating `undefined` yields the string `"undefined"`. -/
def jsTemplate (x : Option String) : String :=
  match x with
  | some s => s
  | none => "undefined"

/-- The recording options structure (the union of the option fields
recognized by the implementation variants and the type declarations).
Absent fields are `none`. -/
structure Options where
  loglevel : Option String := none
  inputFormat : Option String := none
  resolution : Option String := none
  fps : Option Int := none
  videoFilter : Option String := none
  videoCodec : Option String := none
  pixelFormat : Option String := none
  rotate : Option Int := none
  hostname : Option String := none
  display : Option String := none
  protocol : Option String := none
  username : Option String := none
  password : Option String := none
  port : Option Int := none
  pathname : Option String := none
  search : Option String := none
deriving DecidableEq, Repr

/-- The `{stdout, stderr}` result a recording promise resolves with. -/
structure Result where
  stdout : String
  stderr : String
deriving DecidableEq, Repr

/-- The error passed to the `execFile` exit callback: whether the child was
killed via the parent's `kill` call (the interrupt signal sent by `stop`)
and the reported exit code. -/
structure ExecError where
  killed : Bool
  code : Int
deriving DecidableEq, Repr

/-! ### Model of the WHATWG URL object used by `buildURL`

`buildURL` starts from `new URL('http://localhost')` and assigns the truthy
option fields to the URL's properties.  The model covers the WHATWG setter
behaviour relevant here for plain (already percent-encoded-free) component
values: the protocol setter ignores a change between special and
non-special schemes, the port setter ignores out-of-range ports and elides
a port equal to the scheme's default, the pathname setter ensures a leading
slash, the search setter strips a leading question mark, and the serializer
includes a userinfo section exactly when username or password is nonempty.
Percent-encoding of reserved characters is elided. -/

/-- The WHATWG special schemes. -/
def specialSchemes : List String := ["ftp", "file", "http", "https", "ws", "wss"]

/-- Whether a scheme is a WHATWG special scheme. -/
def isSpecial (s : String) : Bool := specialSchemes.contains s

/-- Default port of the WHATWG special schemes. -/
def defaultPort : String → Option Int
  | "ftp" => some 21
  | "http" => some 80
  | "https" => some 443
  | "ws" => some 80
  | "wss" => some 443
  | _ => none

/-- Internal state of the URL object. `new URL('http://localhost')` is the
default value. The port is `none` when elided; query is stored without the
leading question mark. -/
structure URLState where
  scheme : String := "http"
  username : String := ""
  password : String := ""
  host : String := "localhost"
  port : Option Int := none
  path : String := "/"
  query : String := ""
deriving DecidableEq, Repr

/-- Drop one trailing colon from a protocol value, as the protocol setter
accepts both `http` and `http:`. -/
def stripColon (p : String) : String :=
  match p.data.getLast? with
  | some c => if c = ':' then String.mk p.data.dropLast else p
  | none => p

/-- The WHATWG protocol setter: the new scheme is ignored when empty or
when it would switch between a special and a non-special scheme. -/
def setProtocol (u : URLState) (v : String) : URLState :=
  if stripColon v = "" then u
  else if isSpecial (stripColon v) = isSpecial u.scheme then
    { u with scheme := stripColon v }
  else u

/-- The username setter; a URL that cannot have a username/password/port
(empty host, or the `file` scheme) ignores the assignment. -/
def setUsername (u : URLState) (v : String) : URLState :=
  if u.host = "" ∨ u.scheme = "file" then u else { u with username := v }

/-- The password setter; a URL that cannot have a username/password/port
(empty host, or the `file` scheme) ignores the assignment. -/
def setPassword (u : URLState) (v : String) : URLState :=
  if u.host = "" ∨ u.scheme = "file" then u else { u with password := v }

/-- The hostname setter. (The file-scheme normalization of the host
`localhost` to the empty host is not modelled; the theorems stated over
this model keep the `file` scheme out of scope.) -/
def setHostname (u : URLState) (v : String) : URLState := { u with host := v }

/-- The WHATWG port setter: a URL that cannot have a username/password/port
(empty host, or the `file` scheme) ignores the assignment; out-of-range
values are ignored and a port equal to the scheme's default is stored as
elided. -/
def setPort (u : URLState) (n : Int) : URLState :=
  if u.host = "" ∨ u.scheme = "file" then u
  else if n < 0 ∨ 65535 < n then u
  else if defaultPort u.scheme = some n then { u with port := none }
  else { u with port := some n }

/-- The pathname setter: a missing leading slash is added. -/
def setPathname (u : URLState) (v : String) : URLState :=
  { u with path := if v.startsWith "/" then v else "/" ++ v }

/-- The search setter: a leading question mark is stripped. -/
def setSearch (u : URLState) (v : String) : URLState :=
  { u with query := if v.startsWith "?" then v.drop 1 else v }

/-- Userinfo section of the serialized URL: present exactly when username
or password is nonempty; the password is preceded by a colon. -/
def userinfoString (u : URLState) : String :=
  if u.username = "" ∧ u.password = "" then ""
  else u.username ++ (if u.password = "" then "" else ":" ++ u.password) ++ "@"

/-- Port section of the serialized URL. -/
def portString (u : URLState) : String :=
  match u.port with
  | none => ""
  | some p => ":" ++ toString p

/-- Query section of the serialized URL. -/
def queryString (u : URLState) : String :=
  if u.query = "" then "" else "?" ++ u.query

/-- Serialization (`url.href`). -/
def serializeURL (u : URLState) : String :=
  u.scheme ++ "://" ++ userinfoString u ++ u.host ++ portString u ++ u.path ++ queryString u

/-- The port reachable through the URL, taking the scheme default into
account when the stored port is elided. -/
def effectivePort (u : URLState) : Option Int :=
  match u.port with
  | some p => some p
  | none => defaultPort u.scheme

/-- Loop iteration of `buildURL` for the key `protocol`:
`if (value) url[key] = value`. -/
def stepProtocol (o : Options) (u : URLState) : URLState :=
  if truthyS o.protocol then setProtocol u (o.protocol.getD "") else u

/-- Loop iteration of `buildURL` for the key `username`. -/
def stepUsername (o : Options) (u : URLState) : URLState :=
  if truthyS o.username then setUsername u (o.username.getD "") else u

/-- Loop iteration of `buildURL` for the key `password`. -/
def stepPassword (o : Options) (u : URLState) : URLState :=
  if truthyS o.password then setPassword u (o.password.getD "") else u

/-- Loop iteration of `buildURL` for the key `hostname`. -/
def stepHostname (o : Options) (u : URLState) : URLState :=
  if truthyS o.hostname then setHostname u (o.hostname.getD "") else u

/-- Loop iteration of `buildURL` for the key `port`. -/
def stepPort (o : Options) (u : URLState) : URLState :=
  if truthyI o.port then setPort u (o.port.getD 0) else u

/-- Loop iteration of `buildURL` for the key `pathname`. -/
def stepPathname (o : Options) (u : URLState) : URLState :=
  if truthyS o.pathname then setPathname u (o.pathname.getD "") else u

/-- Loop iteration of `buildURL` for the key `search`. -/
def stepSearch (o : Options) (u : URLState) : URLState :=
  if truthyS o.search then setSearch u (o.search.getD "") else u

/-- Embeds `buildURL` of `index.js` and `unnamed/part_001`: starting from
`new URL('http://localhost')`, assign each of the seven listed properties
in order when its value is truthy. -/
def buildURLState (o : Options) : URLState :=
  stepSearch o (stepPathname o (stepPort o (stepHostname o
    (stepPassword o (stepUsername o (stepProtocol o {}))))))

/-- The string returned by `buildURL` (`url.href`). -/
def buildURL (o : Options) : String := serializeURL (buildURLState o)

/-- The input URL of the option-driven builders: the `<hostname>:<display>`
grab string in x11grab mode (strict string comparison on `inputFormat`),
otherwise the URL built by `buildURL`. -/
def inputToken (o : Options) : String :=
  if o.inputFormat = some "x11grab" then
    (o.hostname.getD "") ++ ":" ++ jsTemplate o.display
  else buildURL o

/-- Embeds the exit callback shared by the SIGINT-exempting variants
(`index.js` second variant, `unnamed/part_000`, `unnamed/part_001`): an
erroneous exit is forgiven exactly when the child was killed and reported
exit code 255 (ffmpeg's status upon receiving SIGINT); any other error
rejects with the underlying error, otherwise the callback resolves with
`{stdout, stderr}`. -/
def exitCallback (error : Option ExecError) (stdout stderr : String) :
    Except ExecError Result :=
  match error with
  | some e => if e.killed && e.code == 255 then .ok ⟨stdout, stderr⟩ else .error e
  | none => .ok ⟨stdout, stderr⟩

/-! ### The stop/cancel model

`stop` reads the handle's process reference and sends SIGINT when it is
still set; the exit callback clears the reference as its first action.
The handle's life is a sequence of events (`stop` calls interleaved with
the single process exit); `runHandle` collects the signals sent. `stop`
is a total function: it never throws. -/

/-- Events in the life of a recording handle: a call of `stop`, or the
firing of the process exit callback (which clears the reference). -/
inductive REvent where
  | stop
  | exit
deriving DecidableEq, Repr

/-- Signals sent by one `stop` call given the liveness of the process
reference: `if (recProcess) recProcess.kill('SIGINT')`. -/
def stopSignals (live : Bool) : List String :=
  if live then ["SIGINT"] else []

/-- Effect of an event on the process reference: the exit callback clears
it (`recProcess = null`); `stop` leaves it unchanged. -/
def stepLive (live : Bool) : REvent → Bool
  | .stop => live
  | .exit => false

/-- All signals sent over a sequence of events, starting from the given
liveness of the process reference. -/
def runHandle : Bool → List REvent → List String
  | _, [] => []
  | live, .stop :: rest => stopSignals live ++ runHandle (stepLive live .stop) rest
  | live, .exit :: rest => runHandle (stepLive live .exit) rest

/-- Number of `stop` events before the first `exit` event. -/
def stopsBeforeExit : List REvent → Nat
  | [] => 0
  | .exit :: _ => 0
  | .stop :: rest => stopsBeforeExit rest + 1

/-! ### String splitting and the stderr warning pattern

The first `index.js` variant inspects `stderr.split('\n')` and tests the
first line against the regular expression
`/x11grab .* image data event_error/`.  The split and an executable
matcher for that pattern are defined on character lists, together with a
characterization of the matcher as an explicit decomposition. -/

/-- JS `String.prototype.split('\n')` on a character list: the list of
newline-separated segments (the empty string splits into one empty
segment). -/
def splitNl : List Char → List (List Char)
  | [] => [[]]
  | c :: rest =>
    if c = '\n' then [] :: splitNl rest
    else
      match splitNl rest with
      | [] => [[c]]
      | h :: t => (c :: h) :: t

/-- Whether `p` is an initial segment of `s`. -/
def startsWithL : List Char → List Char → Bool
  | [], _ => true
  | _ :: _, [] => false
  | p :: ps, c :: cs => p == c && startsWithL ps cs

/-- A character the ECMAScript `.` matches: anything except the line
terminators LF, CR, LINE SEPARATOR and PARAGRAPH SEPARATOR. -/
def dotChar (c : Char) : Bool :=
  c != '\n' && c != '\r' && c != '\u2028' && c != '\u2029'

/-- Whether the list has the shape `.*pat...`: an occurrence of `pat`
preceded only by characters the ECMAScript `.` matches. -/
def dotsThen (pat : List Char) : List Char → Bool
  | [] => startsWithL pat []
  | c :: cs => startsWithL pat (c :: cs) || (dotChar c && dotsThen pat cs)

/-- First literal of the warning pattern. -/
def pat1 : List Char := "x11grab ".data

/-- Second literal of the warning pattern. -/
def pat2 : List Char := " image data event_error".data

/-- Executable matcher for the regular expression
`/x11grab .* image data event_error/`: some position starts with the first
literal and is followed, after it, by a run of characters the ECMAScript
`.` matches (no line terminators) and then the second literal. -/
def regexTest : List Char → Bool
  | [] => startsWithL pat1 [] && dotsThen pat2 []
  | c :: cs =>
    (startsWithL pat1 (c :: cs) && dotsThen pat2 ((c :: cs).drop pat1.length))
      || regexTest cs

namespace IndexA

/-- Embeds the argument list of the first `index.js` variant: a fixed
shape with `||`-defaulted values, `-loglevel error`, and the overwrite
flag immediately before the output file name. -/
def ffmpegArgs (fileName : String) (options : Options) : List String :=
  ["-video_size", jsOrS options.resolution "1440x900",
   "-r", toString (jsOrI options.fps 15),
   "-f", "x11grab",
   "-i", jsOrS options.hostname "" ++ ":" ++ jsOrS options.display "0",
   "-pix_fmt", jsOrS options.pixelFormat "yuv420p",
   "-loglevel", "error",
   "-y", fileName]

/-- Embeds the exit callback of the first `index.js` variant: an error is
forgiven exactly when stderr splits into exactly two newline-separated
lines whose first line matches `/x11grab .* image data event_error/`;
otherwise the error is rejected; a non-erroneous exit resolves. -/
def exitCallback (error : Option ExecError) (stdout stderr : String) :
    Except ExecError Result :=
  match error with
  | none => .ok ⟨stdout, stderr⟩
  | some e =>
    if (splitNl stderr.data).length != 2
        || !regexTest ((splitNl stderr.data).headD []) then .error e
    else .ok ⟨stdout, stderr⟩

end IndexA

namespace Part0

/-- Embeds the argument list of `unnamed/part_000`: like `IndexA` but with
the overwrite flag first and `-loglevel fatal`. -/
def ffmpegArgs (fileName : String) (options : Options) : List String :=
  ["-y", "-loglevel", "fatal",
   "-video_size", jsOrS options.resolution "1440x900",
   "-r", toString (jsOrI options.fps 15),
   "-f", "x11grab",
   "-i", jsOrS options.hostname "" ++ ":" ++ jsOrS options.display "0",
   "-pix_fmt", jsOrS options.pixelFormat "yuv420p",
   fileName]

end Part0

namespace IndexB

/-- Embeds `buildFFMPEGArgs` of the second `index.js` variant: overwrite
flag first, then the conditional option flags, the input URL, and the
output file name last. -/
def buildFFMPEGArgs (fileName : String) (options : Options) : List String :=
  (["-y"]
    ++ (if truthyS options.loglevel then ["-loglevel", options.loglevel.getD ""] else [])
    ++ (if truthyS options.resolution then ["-video_size", options.resolution.getD ""] else [])
    ++ (if truthyI options.fps then ["-r", toString (options.fps.getD 0)] else [])
    ++ (if truthyS options.inputFormat then ["-f", options.inputFormat.getD ""] else [])
    ++ ["-i", inputToken options]
    ++ (if truthyS options.videoCodec then ["-vcodec", options.videoCodec.getD ""] else [])
    ++ (if truthyS options.pixelFormat then ["-pix_fmt", options.pixelFormat.getD ""] else []))
  ++ [fileName]

/-- Embeds the `Object.assign` default overlay performed by `recordScreen`
of the second `index.js` variant (and of `unnamed/part_001`): a supplied
field always wins, an absent field receives the default. -/
def mergeDefaults (o : Options) : Options :=
  { o with
    inputFormat := some (o.inputFormat.getD "x11grab")
    fps := some (o.fps.getD 15)
    pixelFormat := some (o.pixelFormat.getD "yuv420p")
    display := some (o.display.getD "0")
    port := some (o.port.getD 9000) }

/-- The argument list `recordScreen` passes to the primary ffmpeg process
in the second `index.js` variant. -/
def recordScreenArgs (fileName : String) (o : Options) : List String :=
  buildFFMPEGArgs fileName (mergeDefaults o)

/-- Derived temporary file name of the metadata pass:
`fileName.replace(/[^.]+$/, 'tmp.$&')` inserts `tmp.` before the final
dot-free suffix, and leaves the name unchanged when it ends with a dot. -/
def tmpFileName (f : String) : String :=
  let sfx := (f.data.reverse.takeWhile (fun c => c ≠ '.')).reverse
  if sfx.isEmpty then f
  else String.mk (f.data.take (f.data.length - sfx.length)) ++ "tmp." ++ String.mk sfx

/-- Argument list of the rotation-metadata post-pass invocation. -/
def metadataArgs (fileName : String) (rotate : Int) : List String :=
  ["-y", "-loglevel", "error", "-i", fileName, "-codec", "copy",
   "-map_metadata", "0", "-metadata:s:v", "rotate=" ++ toString rotate,
   tmpFileName fileName]

/-- Failure modes of the overall recording promise of the second
`index.js` variant. -/
inductive PromiseError where
  /-- The TypeError thrown by reading `options.rotate` when `options` is
  `undefined`. -/
  | typeError
  /-- Rejection of the primary ffmpeg process. -/
  | exec (e : ExecError)
  /-- Rejection of the rotation-metadata post-pass. -/
  | metadata (msg : String)
deriving DecidableEq, Repr

/-- Embeds `setMetadata`: reading `options.rotate` throws when `options`
is `undefined`; a falsy `rotate` passes the result through untouched; a
truthy `rotate` runs the post-pass command (returned as the first
component; the file delete/rename effects after a successful pass are not
modelled) and yields the original result on success or the post-pass
failure on failure. -/
def setMetadata (fileName : String) (options : Option Options)
    (postPass : Except String Unit) (result : Result) :
    Option (List String) × Except PromiseError Result :=
  match options with
  | none => (none, .error .typeError)
  | some o =>
    if truthyI o.rotate then
      (some (metadataArgs fileName (o.rotate.getD 0)),
        match postPass with
        | .ok _ => .ok result
        | .error m => .error (.metadata m))
    else (none, .ok result)

/-- The overall promise of the second `index.js` variant:
`new Promise(resolveRecordingProcess).then(setMetadata)`.  The first
component is the post-pass command when one was run. -/
def recordPromise (fileName : String) (options : Option Options)
    (error : Option ExecError) (stdout stderr : String)
    (postPass : Except String Unit) :
    Option (List String) × Except PromiseError Result :=
  match exitCallback error stdout stderr with
  | .error e => (none, .error (.exec e))
  | .ok r => setMetadata fileName options postPass r

end IndexB

namespace Part1

/-- Embeds `buildFFMPEGArgs` of `unnamed/part_001`: a hard-coded
`-y -loglevel fatal` prefix, then the conditional option flags, the input
URL, and the output file name last. -/
def buildFFMPEGArgs (fileName : String) (options : Options) : List String :=
  (["-y", "-loglevel", "fatal"]
    ++ (if truthyS options.resolution then ["-video_size", options.resolution.getD ""] else [])
    ++ (if truthyI options.fps then ["-r", toString (options.fps.getD 0)] else [])
    ++ (if truthyS options.inputFormat then ["-f", options.inputFormat.getD ""] else [])
    ++ ["-i", inputToken options]
    ++ (if truthyS options.videoCodec then ["-vcodec", options.videoCodec.getD ""] else [])
    ++ (if truthyS options.pixelFormat then ["-pix_fmt", options.pixelFormat.getD ""] else []))
  ++ [fileName]

end Part1

namespace SpecModel

/-- Modelled from the spec: the variant of `buildFFMPEGArgs` that supports
the `videoFilter` option.  The option is declared in the repository's type
declarations and exercised by its tests, but the implementation file that
handles it is not among the sources.  Following spec §4.1, the builder
emits, in order: the overwrite flag, then conditionally the verbosity,
capture-size, frame-rate and input-format flags, always the input source,
then conditionally the filter-graph flag (`-filter:v`) with the
`videoFilter` value, the codec flag, the pixel-format flag, and the output
file path last. -/
def buildFFMPEGArgs (fileName : String) (options : Options) : List String :=
  (["-y"]
    ++ (if truthyS options.loglevel then ["-loglevel", options.loglevel.getD ""] else [])
    ++ (if truthyS options.resolution then ["-video_size", options.resolution.getD ""] else [])
    ++ (if truthyI options.fps then ["-r", toString (options.fps.getD 0)] else [])
    ++ (if truthyS options.inputFormat then ["-f", options.inputFormat.getD ""] else [])
    ++ ["-i", inputToken options]
    ++ (if truthyS options.videoFilter then ["-filter:v", options.videoFilter.getD ""] else [])
    ++ (if truthyS options.videoCodec then ["-vcodec", options.videoCodec.getD ""] else [])
    ++ (if truthyS options.pixelFormat then ["-pix_fmt", options.pixelFormat.getD ""] else []))
  ++ [fileName]

end SpecModel

/-- The value (non-flag) positions of the option-driven argument list: the
tokens of `buildFFMPEGArgs fileName o` other than the literal flags are
all among these. -/
def valueTokens (fileName : String) (o : Options) : List String :=
  [o.loglevel.getD "", o.resolution.getD "", toString (o.fps.getD 0),
   o.inputFormat.getD "", inputToken o, o.videoCodec.getD "",
   o.pixelFormat.getD "", fileName]

/-- A concrete full-featured network-mode option set (used to evaluate the
URL builder at one input). -/
def c8opts : Options :=
  { protocol := some "https", username := some "user", password := some "pass",
    hostname := some "example", port := some 8080, pathname := some "live",
    search := some "key=val" }

/-! ### Helper lemmas -/

@[simp] theorem stepUsername_scheme (o : Options) (u : URLState) :
    (stepUsername o u).scheme = u.scheme := by
  unfold stepUsername setUsername; split <;> [skip; rfl]; split_ifs <;> rfl

@[simp] theorem stepPassword_scheme (o : Options) (u : URLState) :
    (stepPassword o u).scheme = u.scheme := by
  unfold stepPassword setPassword; split <;> [skip; rfl]; split_ifs <;> rfl

@[simp] theorem stepHostname_scheme (o : Options) (u : URLState) :
    (stepHostname o u).scheme = u.scheme := by
  unfold stepHostname; split <;> rfl

@[simp] theorem stepPort_scheme (o : Options) (u : URLState) :
    (stepPort o u).scheme = u.scheme := by
  unfold stepPort setPort; split <;> [skip; rfl]; split_ifs <;> rfl

@[simp] theorem stepPathname_scheme (o : Options) (u : URLState) :
    (stepPathname o u).scheme = u.scheme := by
  unfold stepPathname; split <;> rfl

@[simp] theorem stepSearch_scheme (o : Options) (u : URLState) :
    (stepSearch o u).scheme = u.scheme := by
  unfold stepSearch; split <;> rfl

@[simp] theorem stepProtocol_username (o : Options) (u : URLState) :
    (stepProtocol o u).username = u.username := by
  unfold stepProtocol setProtocol; split <;> [skip; rfl]; split_ifs <;> rfl

@[simp] theorem stepPassword_username (o : Options) (u : URLState) :
    (stepPassword o u).username = u.username := by
  unfold stepPassword setPassword; split <;> [skip; rfl]; split_ifs <;> rfl

@[simp] theorem stepHostname_username (o : Options) (u : URLState) :
    (stepHostname o u).username = u.username := by
  unfold stepHostname; split <;> rfl

@[simp] theorem stepPort_username (o : Options) (u : URLState) :
    (stepPort o u).username = u.username := by
  unfold stepPort setPort; split <;> [skip; rfl]; split_ifs <;> rfl

@[simp] theorem stepPathname_username (o : Options) (u : URLState) :
    (stepPathname o u).username = u.username := by
  unfold stepPathname; split <;> rfl

@[simp] theorem stepSearch_username (o : Options) (u : URLState) :
    (stepSearch o u).username = u.username := by
  unfold stepSearch; split <;> rfl

@[simp] theorem stepProtocol_password (o : Options) (u : URLState) :
    (stepProtocol o u).password = u.password := by
  unfold stepProtocol setProtocol; split <;> [skip; rfl]; split_ifs <;> rfl

@[simp] theorem stepUsername_password (o : Options) (u : URLState) :
    (stepUsername o u).password = u.password := by
  unfold stepUsername setUsername; split <;> [skip; rfl]; split_ifs <;> rfl

@[simp] theorem stepHostname_password (o : Options) (u : URLState) :
    (stepHostname o u).password = u.password := by
  unfold stepHostname; split <;> rfl

@[simp] theorem stepPort_password (o : Options) (u : URLState) :
    (stepPort o u).password = u.password := by
  unfold stepPort setPort; split <;> [skip; rfl]; split_ifs <;> rfl

@[simp] theorem stepPathname_password (o : Options) (u : URLState) :
    (stepPathname o u).password = u.password := by
  unfold stepPathname; split <;> rfl

@[simp] theorem stepSearch_password (o : Options) (u : URLState) :
    (stepSearch o u).password = u.password := by
  unfold stepSearch; split <;> rfl

@[simp] theorem stepProtocol_host (o : Options) (u : URLState) :
    (stepProtocol o u).host = u.host := by
  unfold stepProtocol setProtocol; split <;> [skip; rfl]; split_ifs <;> rfl

@[simp] theorem stepUsername_host (o : Options) (u : URLState) :
    (stepUsername o u).host = u.host := by
  unfold stepUsername setUsername; split <;> [skip; rfl]; split_ifs <;> rfl

@[simp] theorem stepPassword_host (o : Options) (u : URLState) :
    (stepPassword o u).host = u.host := by
  unfold stepPassword setPassword; split <;> [skip; rfl]; split_ifs <;> rfl

@[simp] theorem stepPort_host (o : Options) (u : URLState) :
    (stepPort o u).host = u.host := by
  unfold stepPort setPort; split <;> [skip; rfl]; split_ifs <;> rfl

@[simp] theorem stepPathname_host (o : Options) (u : URLState) :
    (stepPathname o u).host = u.host := by
  unfold stepPathname; split <;> rfl

@[simp] theorem stepSearch_host (o : Options) (u : URLState) :
    (stepSearch o u).host = u.host := by
  unfold stepSearch; split <;> rfl

@[simp] theorem stepProtocol_port (o : Options) (u : URLState) :
    (stepProtocol o u).port = u.port := by
  unfold stepProtocol setProtocol; split <;> [skip; rfl]; split_ifs <;> rfl

@[simp] theorem stepUsername_port (o : Options) (u : URLState) :
    (stepUsername o u).port = u.port := by
  unfold stepUsername setUsername; split <;> [skip; rfl]; split_ifs <;> rfl

@[simp] theorem stepPassword_port (o : Options) (u : URLState) :
    (stepPassword o u).port = u.port := by
  unfold stepPassword setPassword; split <;> [skip; rfl]; split_ifs <;> rfl

@[simp] theorem stepHostname_port (o : Options) (u : URLState) :
    (stepHostname o u).port = u.port := by
  unfold stepHostname; split <;> rfl

@[simp] theorem stepPathname_port (o : Options) (u : URLState) :
    (stepPathname o u).port = u.port := by
  unfold stepPathname; split <;> rfl

@[simp] theorem stepSearch_port (o : Options) (u : URLState) :
    (stepSearch o u).port = u.port := by
  unfold stepSearch; split <;> rfl

@[simp] theorem stepProtocol_path (o : Options) (u : URLState) :
    (stepProtocol o u).path = u.path := by
  unfold stepProtocol setProtocol; split <;> [skip; rfl]; split_ifs <;> rfl

@[simp] theorem stepUsername_path (o : Options) (u : URLState) :
    (stepUsername o u).path = u.path := by
  unfold stepUsername setUsername; split <;> [skip; rfl]; split_ifs <;> rfl

@[simp] theorem stepPassword_path (o : Options) (u : URLState) :
    (stepPassword o u).path = u.path := by
  unfold stepPassword setPassword; split <;> [skip; rfl]; split_ifs <;> rfl

@[simp] theorem stepHostname_path (o : Options) (u : URLState) :
    (stepHostname o u).path = u.path := by
  unfold stepHostname; split <;> rfl

@[simp] theorem stepPort_path (o : Options) (u : URLState) :
    (stepPort o u).path = u.path := by
  unfold stepPort setPort; split <;> [skip; rfl]; split_ifs <;> rfl

@[simp] theorem stepSearch_path (o : Options) (u : URLState) :
    (stepSearch o u).path = u.path := by
  unfold stepSearch; split <;> rfl

@[simp] theorem stepProtocol_query (o : Options) (u : URLState) :
    (stepProtocol o u).query = u.query := by
  unfold stepProtocol setProtocol; split <;> [skip; rfl]; split_ifs <;> rfl

@[simp] theorem stepUsername_query (o : Options) (u : URLState) :
    (stepUsername o u).query = u.query := by
  unfold stepUsername setUsername; split <;> [skip; rfl]; split_ifs <;> rfl

@[simp] theorem stepPassword_query (o : Options) (u : URLState) :
    (stepPassword o u).query = u.query := by
  unfold stepPassword setPassword; split <;> [skip; rfl]; split_ifs <;> rfl

@[simp] theorem stepHostname_query (o : Options) (u : URLState) :
    (stepHostname o u).query = u.query := by
  unfold stepHostname; split <;> rfl

@[simp] theorem stepPort_query (o : Options) (u : URLState) :
    (stepPort o u).query = u.query := by
  unfold stepPort setPort; split <;> [skip; rfl]; split_ifs <;> rfl

@[simp] theorem stepPathname_query (o : Options) (u : URLState) :
    (stepPathname o u).query = u.query := by
  unfold stepPathname; split <;> rfl

theorem getLastOfAppendSingleton {α : Type} (l : List α) (a : α) :
    (l ++ [a]).getLast? = some a := by
  induction l with
  | nil => rfl
  | cons x xs ih =>
    rw [List.cons_append]
    cases h : xs ++ [a] with
    | nil => exact absurd h (by simp)
    | cons y ys => rw [List.getLast?_cons_cons, ← h, ih]

theorem dropOfAppendLen {α : Type} (p t : List α) : (p ++ t).drop p.length = t := by
  induction p with
  | nil => rfl
  | cons x xs ih =>
    simp only [List.cons_append, List.length_cons, List.drop_succ_cons]
    exact ih

theorem startsWithL_iff (p s : List Char) :
    startsWithL p s = true ↔ ∃ t, s = p ++ t := by
  induction p generalizing s with
  | nil => simp [startsWithL]
  | cons x xs ih =>
    cases s with
    | nil =>
      simp only [startsWithL, List.cons_append]
      exact ⟨fun h => absurd h (by simp), fun ⟨t, ht⟩ => by simp at ht⟩
    | cons c cs =>
      simp only [startsWithL, Bool.and_eq_true, beq_iff_eq, ih, List.cons_append]
      constructor
      · rintro ⟨rfl, t, rfl⟩
        exact ⟨t, rfl⟩
      · rintro ⟨t, ht⟩
        obtain ⟨h1, h2⟩ := List.cons_eq_cons.mp ht
        exact ⟨h1.symm, t, h2⟩

theorem dotsThen_iff (pat s : List Char) :
    dotsThen pat s = true
      ↔ ∃ a b, s = a ++ pat ++ b ∧ ∀ ch ∈ a, dotChar ch = true := by
  induction s with
  | nil =>
    simp only [dotsThen, startsWithL_iff]
    constructor
    · rintro ⟨t, ht⟩
      exact ⟨[], t, by simpa using ht, by simp⟩
    · rintro ⟨a, b, h, _⟩
      obtain ⟨h1, hb⟩ := List.append_eq_nil.mp h.symm
      obtain ⟨ha, hp⟩ := List.append_eq_nil.mp h1
      exact ⟨[], by simp [hp]⟩
  | cons c cs ih =>
    simp only [dotsThen, Bool.or_eq_true, Bool.and_eq_true, startsWithL_iff, ih]
    constructor
    · rintro (⟨t, ht⟩ | ⟨hdot, a, b, hab, hall⟩)
      · exact ⟨[], t, by simpa using ht, by simp⟩
      · refine ⟨c :: a, b, by simp [hab], ?_⟩
        intro ch hch
        rcases List.mem_cons.mp hch with h | h
        · rw [h]; exact hdot
        · exact hall ch h
    · rintro ⟨a, b, hab, hall⟩
      cases a with
      | nil =>
        exact Or.inl ⟨b, by simpa using hab⟩
      | cons x xs =>
        obtain ⟨rfl, h2⟩ := List.cons_eq_cons.mp (by simpa using hab)
        refine Or.inr ⟨hall c (List.mem_cons_self c xs), xs, b, by simpa using h2, ?_⟩
        intro ch hch
        exact hall ch (List.mem_cons_of_mem _ hch)

theorem regexTest_iff (s : List Char) :
    regexTest s = true
      ↔ ∃ a b c, s = a ++ pat1 ++ b ++ pat2 ++ c
          ∧ ∀ ch ∈ b, dotChar ch = true := by
  induction s with
  | nil =>
    simp only [regexTest, Bool.and_eq_true, startsWithL_iff]
    constructor
    · rintro ⟨⟨t, ht⟩, _⟩
      exact absurd (List.append_eq_nil.mp ht.symm).1 (by decide)
    · rintro ⟨a, b, c, h, _⟩
      have h2 := h.symm
      simp only [List.append_eq_nil] at h2
      exact absurd h2.1.1.1.2 (by decide)
  | cons ch cs ih =>
    simp only [regexTest, Bool.or_eq_true, Bool.and_eq_true, startsWithL_iff,
      dotsThen_iff, ih]
    constructor
    · rintro (⟨⟨t, ht⟩, b, c, hbc, hall⟩ | ⟨a, b, c, habc, hall⟩)
      · refine ⟨[], b, c, ?_, hall⟩
        have h1 : List.drop pat1.length (ch :: cs) = t := by
          rw [ht, dropOfAppendLen]
        have h2 : t = b ++ pat2 ++ c := h1.symm.trans hbc
        simp [ht, h2]
      · exact ⟨ch :: a, b, c, by simp [habc], hall⟩
    · rintro ⟨a, b, c, habc, hall⟩
      cases a with
      | nil =>
        have hsplit : ch :: cs = pat1 ++ (b ++ (pat2 ++ c)) := by
          simpa using habc
        refine Or.inl ⟨⟨b ++ (pat2 ++ c), hsplit⟩, b, c, ?_, hall⟩
        rw [hsplit, dropOfAppendLen, List.append_assoc]
      | cons x xs =>
        obtain ⟨rfl, h2⟩ := List.cons_eq_cons.mp (by simpa using habc)
        refine Or.inr ⟨xs, b, c, ?_, hall⟩
        simpa using h2

theorem runHandle_dead (evs : List REvent) : runHandle false evs = [] := by
  induction evs with
  | nil => rfl
  | cons e rest ih =>
    cases e <;> simp [runHandle, stopSignals, stepLive, ih]

theorem runHandle_replicate (evs : List REvent) :
    runHandle true evs = List.replicate (stopsBeforeExit evs) "SIGINT" := by
  induction evs with
  | nil => rfl
  | cons e rest ih =>
    cases e with
    | stop =>
      simp [runHandle, stopSignals, stepLive, ih, stopsBeforeExit,
        List.replicate_succ]
    | exit =>
      simp [runHandle, stepLive, stopsBeforeExit, runHandle_dead]

/-! ### Claim theorems -/

/-- C1: for every exit of the primary ffmpeg child process, the completion
promise resolves with `{stdout, stderr}` exactly when the process exited
without error, or was killed by the interrupt signal with exit code 255;
every other erroneous exit rejects the promise with the underlying
error. -/
theorem spec_C1_exit_classification (error : Option ExecError)
    (stdout stderr : String) :
    ((exitCallback error stdout stderr).isOk = true ↔
      error = none ∨ ∃ e, error = some e ∧ e.killed = true ∧ e.code = 255)
    ∧ (∀ e, error = some e → ¬(e.killed = true ∧ e.code = 255) →
        exitCallback error stdout stderr = .error e)
    ∧ ((exitCallback error stdout stderr).isOk = true →
        exitCallback error stdout stderr = .ok ⟨stdout, stderr⟩) := by
  cases error with
  | none => simp [exitCallback, Except.isOk, Except.toBool]
  | some e =>
    obtain ⟨k, c⟩ := e
    cases k <;> by_cases hc : c = 255 <;>
      simp [exitCallback, hc, Except.isOk, Except.toBool]

/-- C1 witness: a SIGINT-killed exit with code 255 resolves; a plain
failure with code 1 rejects with the underlying error. -/
theorem spec_C1_witness :
    exitCallback (some ⟨true, 255⟩) "out" "err" = .ok ⟨"out", "err"⟩
    ∧ exitCallback (some ⟨false, 1⟩) "out" "err" = .error ⟨false, 1⟩ := by
  constructor
  · exact (spec_C1_exit_classification (some ⟨true, 255⟩) "out" "err").2.2
      ((spec_C1_exit_classification (some ⟨true, 255⟩) "out" "err").1.mpr
        (Or.inr ⟨⟨true, 255⟩, rfl, rfl, rfl⟩))
  · exact (spec_C1_exit_classification (some ⟨false, 1⟩) "out" "err").2.1
      ⟨false, 1⟩ rfl (by simp)

/-- C2 counterexample: in the first `index.js` variant, the argument list
starts with the capture-size flag, not with the overwrite flag, so the
claim that the overwrite flag is always the first token fails there. -/
theorem spec_C2_counterexample :
    (IndexA.ffmpegArgs "out.mp4" {}).head? = some "-video_size"
    ∧ "-video_size" ≠ "-y" := by
  exact ⟨rfl, by decide⟩

/-- C2 (amended): in the builder-based variants the overwrite flag is the
first token and the output file path the last; in the first `index.js`
variant the output file path is still the last token, with the overwrite
flag immediately before it (but not first). -/
theorem spec_C2_amended (fileName : String) (o : Options) :
    (IndexB.buildFFMPEGArgs fileName o).head? = some "-y"
    ∧ (IndexB.buildFFMPEGArgs fileName o).getLast? = some fileName
    ∧ (Part1.buildFFMPEGArgs fileName o).head? = some "-y"
    ∧ (Part1.buildFFMPEGArgs fileName o).getLast? = some fileName
    ∧ (Part0.ffmpegArgs fileName o).head? = some "-y"
    ∧ (Part0.ffmpegArgs fileName o).getLast? = some fileName
    ∧ (IndexA.ffmpegArgs fileName o).getLast? = some fileName
    ∧ ∃ pre, IndexA.ffmpegArgs fileName o = pre ++ ["-y", fileName] := by
  refine ⟨rfl, ?_, rfl, ?_, rfl, ?_, ?_, ?_⟩
  · unfold IndexB.buildFFMPEGArgs
    exact getLastOfAppendSingleton _ _
  · unfold Part1.buildFFMPEGArgs
    exact getLastOfAppendSingleton _ _
  · have h : Part0.ffmpegArgs fileName o =
        ["-y", "-loglevel", "fatal",
         "-video_size", jsOrS o.resolution "1440x900",
         "-r", toString (jsOrI o.fps 15),
         "-f", "x11grab",
         "-i", jsOrS o.hostname "" ++ ":" ++ jsOrS o.display "0",
         "-pix_fmt", jsOrS o.pixelFormat "yuv420p"] ++ [fileName] := rfl
    rw [h]
    exact getLastOfAppendSingleton _ _
  · have h : IndexA.ffmpegArgs fileName o =
        ["-video_size", jsOrS o.resolution "1440x900",
         "-r", toString (jsOrI o.fps 15),
         "-f", "x11grab",
         "-i", jsOrS o.hostname "" ++ ":" ++ jsOrS o.display "0",
         "-pix_fmt", jsOrS o.pixelFormat "yuv420p",
         "-loglevel", "error", "-y"] ++ [fileName] := rfl
    rw [h]
    exact getLastOfAppendSingleton _ _
  · exact ⟨["-video_size", jsOrS o.resolution "1440x900",
      "-r", toString (jsOrI o.fps 15),
      "-f", "x11grab",
      "-i", jsOrS o.hostname "" ++ ":" ++ jsOrS o.display "0",
      "-pix_fmt", jsOrS o.pixelFormat "yuv420p",
      "-loglevel", "error"], rfl⟩

/-- C3 counterexample: a second `stop` call while the process is still
live sends the interrupt signal again, so it is not a no-op as the claim
states for a second call after a live call. -/
theorem spec_C3_counterexample :
    runHandle true [REvent.stop, REvent.stop] = ["SIGINT", "SIGINT"]
    ∧ ["SIGINT", "SIGINT"] ≠ (["SIGINT"] : List String) := by
  exact ⟨rfl, by decide⟩

/-- C3 (amended): over any event sequence, `stop` sends the interrupt
signal exactly when the process reference is still live: the signals sent
are one SIGINT per stop call before the first exit event (so every call
after the process has exited performs no action), and a handle whose
process reference is already cleared never sends anything.  `stop` is a
total function, so it never throws. -/
theorem spec_C3_amended (evs : List REvent) :
    runHandle true evs = List.replicate (stopsBeforeExit evs) "SIGINT"
    ∧ runHandle false evs = [] := by
  exact ⟨runHandle_replicate evs, runHandle_dead evs⟩

/-- C4 (code-bug evaluation): calling `recordScreen` with the options
argument omitted makes the fulfillment handler `setMetadata` read
`options.rotate` on `undefined`, so a successful ffmpeg exit rejects the
promise with a TypeError instead of resolving with `{stdout, stderr}`;
with an (empty) options object supplied, the same exit resolves. -/
theorem spec_C4_code_bug_eval :
    IndexB.recordPromise "out.mp4" none none "out" "err" (.ok ())
      = (none, .error .typeError)
    ∧ IndexB.recordPromise "out.mp4" (some {}) none "out" "err" (.ok ())
      = (none, .ok ⟨"out", "err"⟩) := by
  exact ⟨rfl, rfl⟩

/-- C6: in the first `index.js` variant, an erroneous exit nevertheless
resolves with `{stdout, stderr}` exactly when stderr splits on newline
into exactly two lines whose first line matches
`/x11grab .* image data event_error/` (characterized as an explicit
decomposition whose middle segment contains only characters the
ECMAScript `.` matches, i.e. no line terminators); any other stderr
content rejects the underlying error. -/
theorem spec_C6_warning_exemption (e : ExecError) (stdout stderr : String) :
    ((IndexA.exitCallback (some e) stdout stderr).isOk = true ↔
      ((splitNl stderr.data).length = 2 ∧
        ∃ a b c, (splitNl stderr.data).headD [] = a ++ pat1 ++ b ++ pat2 ++ c
          ∧ ∀ ch ∈ b, dotChar ch = true))
    ∧ ((IndexA.exitCallback (some e) stdout stderr).isOk = true →
        IndexA.exitCallback (some e) stdout stderr = .ok ⟨stdout, stderr⟩)
    ∧ ((IndexA.exitCallback (some e) stdout stderr).isOk = false →
        IndexA.exitCallback (some e) stdout stderr = .error e) := by
  have hiff := regexTest_iff ((splitNl stderr.data).headD [])
  unfold IndexA.exitCallback
  simp only [List.headD_eq_head?] at hiff ⊢
  by_cases h2 : (splitNl stderr.data).length = 2 <;>
    by_cases hr : regexTest ((splitNl stderr.data).head?.getD []) = true <;>
      simp only [← hiff] <;>
      simp [h2, hr, Except.isOk, Except.toBool]

/-- C6 witness: a two-line stderr whose first line matches the warning
pattern resolves despite the error. -/
theorem spec_C6_witness :
    IndexA.exitCallback (some ⟨false, 1⟩) ""
        "x11grab foo image data event_error\nbar"
      = .ok ⟨"", "x11grab foo image data event_error\nbar"⟩ := by
  have h := spec_C6_warning_exemption ⟨false, 1⟩ ""
    "x11grab foo image data event_error\nbar"
  exact h.2.1 (h.1.mpr ⟨by decide, [], "foo".data, [], by decide, by decide⟩)

/-- C5 (modelled from the spec): whenever `videoFilter` is set, the built
argument list contains the filter-graph flag followed by the filter value,
placed right after the input-source tokens and before the codec flag. -/
theorem spec_C5_videoFilter (fileName : String) (o : Options) (v : String)
    (hv : o.videoFilter = some v) (hne : v ≠ "") :
    ∃ pre,
      SpecModel.buildFFMPEGArgs fileName o =
        pre ++ ["-i", inputToken o] ++ ["-filter:v", v]
          ++ (if truthyS o.videoCodec then ["-vcodec", o.videoCodec.getD ""] else [])
          ++ (if truthyS o.pixelFormat then ["-pix_fmt", o.pixelFormat.getD ""] else [])
          ++ [fileName] := by
  have ht : truthyS o.videoFilter = true := by
    rw [hv]
    have hne2 : v.isEmpty = false := by
      cases hb : v.isEmpty
      · rfl
      · exact absurd ((String.isEmpty_iff v).mp hb) hne
    simp [truthyS, hne2]
  refine ⟨["-y"]
    ++ (if truthyS o.loglevel then ["-loglevel", o.loglevel.getD ""] else [])
    ++ (if truthyS o.resolution then ["-video_size", o.resolution.getD ""] else [])
    ++ (if truthyI o.fps then ["-r", toString (o.fps.getD 0)] else [])
    ++ (if truthyS o.inputFormat then ["-f", o.inputFormat.getD ""] else []), ?_⟩
  unfold SpecModel.buildFFMPEGArgs
  rw [ht, if_pos rfl, hv]
  simp [List.append_assoc]

/-- C5 witness at a concrete filter value. -/
theorem spec_C5_witness :
    ∃ pre,
      SpecModel.buildFFMPEGArgs "out.mp4" { videoFilter := some "crop=480:300" } =
        pre ++ ["-i", inputToken { videoFilter := some "crop=480:300" }]
          ++ ["-filter:v", "crop=480:300"]
          ++ (if truthyS (Options.videoCodec { videoFilter := some "crop=480:300" })
              then ["-vcodec", (Options.videoCodec
                { videoFilter := some "crop=480:300" }).getD ""] else [])
          ++ (if truthyS (Options.pixelFormat { videoFilter := some "crop=480:300" })
              then ["-pix_fmt", (Options.pixelFormat
                { videoFilter := some "crop=480:300" }).getD ""] else [])
          ++ ["out.mp4"] :=
  spec_C5_videoFilter "out.mp4" { videoFilter := some "crop=480:300" }
    "crop=480:300" rfl (by decide)

/-- C7 counterexample: supplying `rotate: 0` together with a successful
primary recording does not run the metadata post-pass, refuting the claim
that the post-pass runs whenever `rotate` was supplied and the primary
promise resolved. -/
theorem spec_C7_counterexample :
    (Options.rotate { rotate := some 0 }).isSome = true
    ∧ (exitCallback none "so" "se").isOk = true
    ∧ (IndexB.recordPromise "out.mp4" (some { rotate := some 0 })
        none "so" "se" (.ok ())).1 = none := by
  exact ⟨rfl, rfl, rfl⟩

/-- C7 (amended): the rotation metadata post-pass runs iff `rotate` was
supplied with a truthy (non-zero) value and the primary recording
resolved; a successful post-pass passes the original `{stdout, stderr}`
through unchanged, a failed post-pass rejects with the post-pass
failure. -/
theorem spec_C7_amended (fileName : String) (o : Options)
    (error : Option ExecError) (stdout stderr : String)
    (postPass : Except String Unit) :
    ((IndexB.recordPromise fileName (some o) error stdout stderr postPass).1.isSome
        = true
      ↔ ((exitCallback error stdout stderr).isOk = true
          ∧ truthyI o.rotate = true))
    ∧ (∀ r, exitCallback error stdout stderr = .ok r → truthyI o.rotate = true →
        (postPass = .ok () →
          (IndexB.recordPromise fileName (some o) error stdout stderr postPass).2
            = .ok r)
        ∧ (∀ m, postPass = .error m →
          (IndexB.recordPromise fileName (some o) error stdout stderr postPass).2
            = .error (.metadata m))) := by
  unfold IndexB.recordPromise IndexB.setMetadata
  cases hec : exitCallback error stdout stderr with
  | error e => simp [Except.isOk, Except.toBool]
  | ok r =>
    by_cases hr : truthyI o.rotate = true <;> cases postPass <;>
      simp [hr, Except.isOk, Except.toBool]

/-- C7 witness: with `rotate: 90` and a successful primary exit the
post-pass runs; its success passes the original result through and its
failure rejects with the post-pass failure. -/
theorem spec_C7_witness :
    (IndexB.recordPromise "out.mp4" (some { rotate := some 90 })
        none "so" "se" (.ok ())).1.isSome = true
    ∧ (IndexB.recordPromise "out.mp4" (some { rotate := some 90 })
        none "so" "se" (.ok ())).2 = .ok ⟨"so", "se"⟩
    ∧ (IndexB.recordPromise "out.mp4" (some { rotate := some 90 })
        none "so" "se" (.error "boom")).2 = .error (.metadata "boom") := by
  refine ⟨?_, ?_, ?_⟩
  · exact (spec_C7_amended "out.mp4" { rotate := some 90 } none "so" "se"
      (.ok ())).1.mpr ⟨rfl, rfl⟩
  · exact ((spec_C7_amended "out.mp4" { rotate := some 90 } none "so" "se"
      (.ok ())).2 ⟨"so", "se"⟩ rfl rfl).1 rfl
  · exact ((spec_C7_amended "out.mp4" { rotate := some 90 } none "so" "se"
      (.error "boom")).2 ⟨"so", "se"⟩ rfl rfl).2 "boom" rfl

/-- C9: in device-grab mode the token following the input-source flag is
exactly `<hostname>:<display>`, with hostname defaulting to the empty
string and display defaulting to `"0"`, in each of the x11grab-capable
variants. -/
theorem spec_C9_device_grab (fileName : String) (o : Options)
    (hx : (IndexB.mergeDefaults o).inputFormat = some "x11grab") :
    (∃ pre post, IndexB.recordScreenArgs fileName o
        = pre ++ ["-i", (o.hostname.getD "") ++ ":" ++ (o.display.getD "0")] ++ post)
    ∧ (∃ pre post, IndexA.ffmpegArgs fileName o
        = pre ++ ["-i", jsOrS o.hostname "" ++ ":" ++ jsOrS o.display "0"] ++ post)
    ∧ (∃ pre post, Part0.ffmpegArgs fileName o
        = pre ++ ["-i", jsOrS o.hostname "" ++ ":" ++ jsOrS o.display "0"] ++ post) := by
  refine ⟨?_, ?_, ?_⟩
  · refine ⟨["-y"]
      ++ (if truthyS (IndexB.mergeDefaults o).loglevel
          then ["-loglevel", (IndexB.mergeDefaults o).loglevel.getD ""] else [])
      ++ (if truthyS (IndexB.mergeDefaults o).resolution
          then ["-video_size", (IndexB.mergeDefaults o).resolution.getD ""] else [])
      ++ (if truthyI (IndexB.mergeDefaults o).fps
          then ["-r", toString ((IndexB.mergeDefaults o).fps.getD 0)] else [])
      ++ (if truthyS (IndexB.mergeDefaults o).inputFormat
          then ["-f", (IndexB.mergeDefaults o).inputFormat.getD ""] else []),
      (if truthyS (IndexB.mergeDefaults o).videoCodec
          then ["-vcodec", (IndexB.mergeDefaults o).videoCodec.getD ""] else [])
      ++ (if truthyS (IndexB.mergeDefaults o).pixelFormat
          then ["-pix_fmt", (IndexB.mergeDefaults o).pixelFormat.getD ""] else [])
      ++ [fileName], ?_⟩
    unfold IndexB.recordScreenArgs IndexB.buildFFMPEGArgs inputToken
    rw [if_pos hx]
    have hh : (IndexB.mergeDefaults o).hostname = o.hostname := rfl
    have hd : jsTemplate (IndexB.mergeDefaults o).display = o.display.getD "0" := rfl
    rw [hh, hd]
    simp [List.append_assoc]
  · exact ⟨["-video_size", jsOrS o.resolution "1440x900",
      "-r", toString (jsOrI o.fps 15), "-f", "x11grab"],
      ["-pix_fmt", jsOrS o.pixelFormat "yuv420p",
       "-loglevel", "error", "-y", fileName], rfl⟩
  · exact ⟨["-y", "-loglevel", "fatal", "-video_size", jsOrS o.resolution "1440x900",
      "-r", toString (jsOrI o.fps 15), "-f", "x11grab"],
      ["-pix_fmt", jsOrS o.pixelFormat "yuv420p", fileName], rfl⟩

/-- C10: the defaults `inputFormat = x11grab`, `fps = 15`,
`pixelFormat = yuv420p`, `display = "0"`, `port = 9000` are overlaid such
that a caller-supplied value always wins, and an explicit falsy value for
a defaulted flag-bearing field (`fps: 0`, `pixelFormat: ""`,
`inputFormat: ""`) suppresses the corresponding flag entirely from the
argument list (provided the flag string does not also occur as one of the
value tokens). -/
theorem spec_C10_defaults (fileName : String) (o : Options) :
    ((IndexB.mergeDefaults o).inputFormat = some (o.inputFormat.getD "x11grab")
      ∧ (IndexB.mergeDefaults o).fps = some (o.fps.getD 15)
      ∧ (IndexB.mergeDefaults o).pixelFormat = some (o.pixelFormat.getD "yuv420p")
      ∧ (IndexB.mergeDefaults o).display = some (o.display.getD "0")
      ∧ (IndexB.mergeDefaults o).port = some (o.port.getD 9000))
    ∧ (o.fps = some 0 →
        "-r" ∉ valueTokens fileName (IndexB.mergeDefaults o) →
        "-r" ∉ IndexB.recordScreenArgs fileName o)
    ∧ (o.pixelFormat = some "" →
        "-pix_fmt" ∉ valueTokens fileName (IndexB.mergeDefaults o) →
        "-pix_fmt" ∉ IndexB.recordScreenArgs fileName o)
    ∧ (o.inputFormat = some "" →
        "-f" ∉ valueTokens fileName (IndexB.mergeDefaults o) →
        "-f" ∉ IndexB.recordScreenArgs fileName o) := by
  refine ⟨⟨rfl, rfl, rfl, rfl, rfl⟩, ?_, ?_, ?_⟩
  · intro hfps hval hmem
    simp only [valueTokens, List.mem_cons, List.not_mem_nil, or_false] at hval
    push_neg at hval
    obtain ⟨hv1, hv2, hv3, hv4, hv5, hv6, hv7, hv8⟩ := hval
    unfold IndexB.recordScreenArgs IndexB.buildFFMPEGArgs at hmem
    have hm : (IndexB.mergeDefaults o).fps = some 0 := by
      simp [IndexB.mergeDefaults, hfps]
    rw [hm] at hmem
    rw [show truthyI (some (0 : Int)) = false from rfl] at hmem
    simp only [Bool.false_eq_true, if_false, List.append_nil,
      List.nil_append] at hmem
    simp only [List.mem_append, List.mem_cons, List.not_mem_nil,
      or_false] at hmem
    split_ifs at hmem <;> simp_all
  · intro hpix hval hmem
    simp only [valueTokens, List.mem_cons, List.not_mem_nil, or_false] at hval
    push_neg at hval
    obtain ⟨hv1, hv2, hv3, hv4, hv5, hv6, hv7, hv8⟩ := hval
    unfold IndexB.recordScreenArgs IndexB.buildFFMPEGArgs at hmem
    have hm : (IndexB.mergeDefaults o).pixelFormat = some "" := by
      simp [IndexB.mergeDefaults, hpix]
    rw [hm] at hmem
    rw [show truthyS (some "") = false from rfl] at hmem
    simp only [Bool.false_eq_true, if_false, List.append_nil,
      List.nil_append] at hmem
    simp only [List.mem_append, List.mem_cons, List.not_mem_nil,
      or_false] at hmem
    split_ifs at hmem <;> simp_all
  · intro hfmt hval hmem
    simp only [valueTokens, List.mem_cons, List.not_mem_nil, or_false] at hval
    push_neg at hval
    obtain ⟨hv1, hv2, hv3, hv4, hv5, hv6, hv7, hv8⟩ := hval
    unfold IndexB.recordScreenArgs IndexB.buildFFMPEGArgs at hmem
    have hm : (IndexB.mergeDefaults o).inputFormat = some "" := by
      simp [IndexB.mergeDefaults, hfmt]
    rw [hm] at hmem
    rw [show truthyS (some "") = false from rfl] at hmem
    simp only [Bool.false_eq_true, if_false, List.append_nil,
      List.nil_append] at hmem
    simp only [List.mem_append, List.mem_cons, List.not_mem_nil,
      or_false] at hmem
    split_ifs at hmem <;> simp_all

/-- C10 witness: explicit falsy values for `fps`, `pixelFormat` and
`inputFormat` suppress the frame-rate, pixel-format and input-format flags
at a concrete input. -/
theorem spec_C10_witness :
    "-r" ∉ IndexB.recordScreenArgs "out.mp4"
        { fps := some 0, pixelFormat := some "", inputFormat := some "" }
    ∧ "-pix_fmt" ∉ IndexB.recordScreenArgs "out.mp4"
        { fps := some 0, pixelFormat := some "", inputFormat := some "" }
    ∧ "-f" ∉ IndexB.recordScreenArgs "out.mp4"
        { fps := some 0, pixelFormat := some "", inputFormat := some "" } := by
  refine ⟨?_, ?_, ?_⟩
  · exact (spec_C10_defaults "out.mp4"
      { fps := some 0, pixelFormat := some "", inputFormat := some "" }).2.1
      rfl (by decide)
  · exact (spec_C10_defaults "out.mp4"
      { fps := some 0, pixelFormat := some "", inputFormat := some "" }).2.2.1
      rfl (by decide)
  · exact (spec_C10_defaults "out.mp4"
      { fps := some 0, pixelFormat := some "", inputFormat := some "" }).2.2.2
      rfl (by decide)

/-- C9 witness: with no options supplied the device-grab input token is
`:0` in every variant. -/
theorem spec_C9_witness :
    (∃ pre post, IndexB.recordScreenArgs "out.mp4" {}
        = pre ++ ["-i", (Options.hostname ({} : Options)).getD "" ++ ":"
            ++ (Options.display ({} : Options)).getD "0"] ++ post)
    ∧ (∃ pre post, IndexA.ffmpegArgs "out.mp4" {}
        = pre ++ ["-i", jsOrS (Options.hostname ({} : Options)) "" ++ ":"
            ++ jsOrS (Options.display ({} : Options)) "0"] ++ post)
    ∧ (∃ pre post, Part0.ffmpegArgs "out.mp4" {}
        = pre ++ ["-i", jsOrS (Options.hostname ({} : Options)) "" ++ ":"
            ++ jsOrS (Options.display ({} : Options)) "0"] ++ post) :=
  spec_C9_device_grab "out.mp4" {} rfl

theorem truthyS_false_iff (x : Option String) :
    truthyS x = false ↔ x.getD "" = "" := by
  cases x with
  | none => simp [truthyS]
  | some s => simp [truthyS, String.isEmpty_iff]

theorem userinfoString_eq_empty_iff (u : URLState) :
    userinfoString u = "" ↔ (u.username = "" ∧ u.password = "") := by
  unfold userinfoString
  by_cases hc : u.username = "" ∧ u.password = ""
  · simp [hc]
  · rw [if_neg hc]
    constructor
    · intro h
      exfalso
      have hl := congrArg String.length h
      have hat : ("@" : String).length = 1 := rfl
      have hemp : ("" : String).length = 0 := rfl
      simp only [String.length_append, hat, hemp] at hl
      omega
    · intro hc2
      exact absurd hc2 hc

/-- C8 counterexample: supplying a password without a username still puts
the password into the userinfo part of the built URL (with an empty
username), refuting the claim that the userinfo contains username and
password only when a username is supplied. -/
theorem spec_C8_counterexample :
    Options.username ({ password := some "pw" } : Options) = none
    ∧ buildURL { password := some "pw" } = "http://:pw@localhost/" := by
  exact ⟨rfl, by decide⟩

/-- C8 (amended): for plain component values — a supplied protocol that is
a nonempty special scheme other than `file` (whose URLs cannot carry
credentials or a port) and a supplied port within range — the built
input-source string is the standard serialization of a URL whose scheme,
host, effective port, path and query equal the supplied (or defaulted)
components, and whose userinfo part is present iff a username or a
password is supplied: the username is included exactly when supplied, and
the password exactly when supplied (also without a username). -/
theorem spec_C8_amended (o : Options)
    (hp : ∀ p, o.protocol = some p →
      stripColon p ≠ "" ∧ isSpecial (stripColon p) = true
        ∧ stripColon p ≠ "file")
    (hport : ∀ n, o.port = some n → 0 ≤ n ∧ n ≤ 65535) :
    (buildURLState o).scheme
        = (if truthyS o.protocol then stripColon (o.protocol.getD "")
           else "http")
    ∧ (buildURLState o).username = o.username.getD ""
    ∧ (buildURLState o).password = o.password.getD ""
    ∧ (buildURLState o).host
        = (if truthyS o.hostname then o.hostname.getD "" else "localhost")
    ∧ (truthyI o.port = true → effectivePort (buildURLState o) = o.port)
    ∧ (truthyI o.port = false → (buildURLState o).port = none)
    ∧ (buildURLState o).path
        = (if truthyS o.pathname then
            (if (o.pathname.getD "").startsWith "/" then o.pathname.getD ""
             else "/" ++ o.pathname.getD "")
           else "/")
    ∧ (buildURLState o).query
        = (if truthyS o.search then
            (if (o.search.getD "").startsWith "?" then (o.search.getD "").drop 1
             else o.search.getD "")
           else "")
    ∧ buildURL o
        = (buildURLState o).scheme ++ "://" ++ userinfoString (buildURLState o)
          ++ (buildURLState o).host ++ portString (buildURLState o)
          ++ (buildURLState o).path ++ queryString (buildURLState o)
    ∧ (userinfoString (buildURLState o) = ""
        ↔ (truthyS o.username = false ∧ truthyS o.password = false)) := by
  have hstep : (stepProtocol o {}).scheme
      = (if truthyS o.protocol then stripColon (o.protocol.getD "")
         else "http") := by
    unfold stepProtocol
    by_cases hc : truthyS o.protocol = true
    · rw [if_pos hc, if_pos hc]
      obtain ⟨p, hps⟩ : ∃ p, o.protocol = some p := by
        cases hpp : o.protocol
        · rw [hpp] at hc; simp [truthyS] at hc
        · exact ⟨_, rfl⟩
      obtain ⟨h1, h2, h3⟩ := hp p hps
      have hgd : o.protocol.getD "" = p := by rw [hps]; rfl
      rw [hgd]
      unfold setProtocol
      rw [if_neg h1, if_pos (h2.trans (by rfl))]
    · rw [if_neg hc, if_neg hc]
  have hNF : (stepProtocol o {}).scheme ≠ "file" := by
    rw [hstep]
    by_cases hc : truthyS o.protocol = true
    · rw [if_pos hc]
      obtain ⟨p, hps⟩ : ∃ p, o.protocol = some p := by
        cases hpp : o.protocol
        · rw [hpp] at hc; simp [truthyS] at hc
        · exact ⟨_, rfl⟩
      have hgd : o.protocol.getD "" = p := by rw [hps]; rfl
      rw [hgd]
      exact (hp p hps).2.2
    · rw [if_neg hc]
      decide
  have hhost0 : (stepProtocol o {}).host = "localhost" := by simp
  have hg1 : ¬((stepProtocol o {}).host = ""
      ∨ (stepProtocol o {}).scheme = "file") := by
    rintro (h | h)
    · rw [hhost0] at h
      exact absurd h (by decide)
    · exact hNF h
  have husername : (buildURLState o).username = o.username.getD "" := by
    unfold buildURLState
    simp only [stepSearch_username, stepPathname_username, stepPort_username,
      stepHostname_username, stepPassword_username]
    unfold stepUsername
    by_cases hc : truthyS o.username = true
    · rw [if_pos hc]
      unfold setUsername
      rw [if_neg hg1]
    · rw [if_neg hc]
      have hb : (stepProtocol o {}).username = "" := by simp
      rw [hb]
      exact ((truthyS_false_iff o.username).mp (Bool.not_eq_true _ ▸ hc)).symm
  have hhost1 : (stepUsername o (stepProtocol o {})).host = "localhost" := by
    simp [hhost0]
  have hNF1 : (stepUsername o (stepProtocol o {})).scheme ≠ "file" := by
    simpa using hNF
  have hg2 : ¬((stepUsername o (stepProtocol o {})).host = ""
      ∨ (stepUsername o (stepProtocol o {})).scheme = "file") := by
    rintro (h | h)
    · rw [hhost1] at h
      exact absurd h (by decide)
    · exact hNF1 h
  have hpassword : (buildURLState o).password = o.password.getD "" := by
    unfold buildURLState
    simp only [stepSearch_password, stepPathname_password, stepPort_password,
      stepHostname_password]
    unfold stepPassword
    by_cases hc : truthyS o.password = true
    · rw [if_pos hc]
      unfold setPassword
      rw [if_neg hg2]
    · rw [if_neg hc]
      have hb : (stepUsername o (stepProtocol o {})).password = "" := by simp
      rw [hb]
      exact ((truthyS_false_iff o.password).mp (Bool.not_eq_true _ ▸ hc)).symm
  have hscheme : (buildURLState o).scheme
      = (if truthyS o.protocol then stripColon (o.protocol.getD "")
         else "http") := by
    unfold buildURLState
    simp only [stepSearch_scheme, stepPathname_scheme, stepPort_scheme,
      stepHostname_scheme, stepPassword_scheme, stepUsername_scheme]
    exact hstep
  have hhost : (buildURLState o).host
      = (if truthyS o.hostname then o.hostname.getD "" else "localhost") := by
    unfold buildURLState
    simp only [stepSearch_host, stepPathname_host, stepPort_host]
    unfold stepHostname
    by_cases hc : truthyS o.hostname = true
    · rw [if_pos hc, if_pos hc]
      rfl
    · rw [if_neg hc, if_neg hc]
      simp
  have hpath : (buildURLState o).path
      = (if truthyS o.pathname then
          (if (o.pathname.getD "").startsWith "/" then o.pathname.getD ""
           else "/" ++ o.pathname.getD "")
         else "/") := by
    unfold buildURLState
    simp only [stepSearch_path]
    unfold stepPathname
    by_cases hc : truthyS o.pathname = true
    · rw [if_pos hc, if_pos hc]
      rfl
    · rw [if_neg hc, if_neg hc]
      simp
  have hquery : (buildURLState o).query
      = (if truthyS o.search then
          (if (o.search.getD "").startsWith "?" then (o.search.getD "").drop 1
           else o.search.getD "")
         else "") := by
    unfold buildURLState
    unfold stepSearch
    by_cases hc : truthyS o.search = true
    · rw [if_pos hc, if_pos hc]
      rfl
    · rw [if_neg hc, if_neg hc]
      simp
  refine ⟨hscheme, husername, hpassword, hhost, ?_, ?_, hpath, hquery, rfl, ?_⟩
  · intro hc
    obtain ⟨n, hn⟩ : ∃ n, o.port = some n := by
      cases hpp : o.port
      · rw [hpp] at hc; simp [truthyI] at hc
      · exact ⟨_, rfl⟩
    obtain ⟨h0, h65⟩ := hport n hn
    have hrange : ¬(n < 0 ∨ 65535 < n) := by omega
    have hu4host : (stepHostname o (stepPassword o (stepUsername o
        (stepProtocol o {})))).host ≠ "" := by
      unfold stepHostname
      by_cases hh : truthyS o.hostname = true
      · rw [if_pos hh]
        show o.hostname.getD "" ≠ ""
        intro habs
        have hfalse := (truthyS_false_iff o.hostname).mpr habs
        rw [hh] at hfalse
        exact absurd hfalse (by decide)
      · rw [if_neg hh]
        have hlh : (stepPassword o (stepUsername o
            (stepProtocol o {}))).host = "localhost" := by simp [hhost0]
        rw [hlh]
        decide
    have hu4scheme : (stepHostname o (stepPassword o (stepUsername o
        (stepProtocol o {})))).scheme ≠ "file" := by
      simpa using hNF
    have hg4 : ¬((stepHostname o (stepPassword o (stepUsername o
          (stepProtocol o {})))).host = ""
        ∨ (stepHostname o (stepPassword o (stepUsername o
          (stepProtocol o {})))).scheme = "file") := by
      rintro (h | h)
      · exact hu4host h
      · exact hu4scheme h
    have hchain : (buildURLState o).port
        = (setPort (stepHostname o (stepPassword o (stepUsername o
            (stepProtocol o {})))) n).port := by
      unfold buildURLState
      simp only [stepSearch_port, stepPathname_port]
      unfold stepPort
      rw [if_pos hc, hn]
      simp only [Option.getD_some]
    have hs4 : (stepHostname o (stepPassword o (stepUsername o
        (stepProtocol o {})))).scheme = (buildURLState o).scheme := by
      unfold buildURLState
      simp only [stepSearch_scheme, stepPathname_scheme, stepPort_scheme]
    unfold setPort at hchain
    rw [if_neg hg4, if_neg hrange] at hchain
    by_cases hd : defaultPort (stepHostname o (stepPassword o (stepUsername o
        (stepProtocol o {})))).scheme = some n
    · rw [if_pos hd] at hchain
      unfold effectivePort
      rw [hchain]
      rw [hn, ← hd, hs4]
    · rw [if_neg hd] at hchain
      unfold effectivePort
      rw [hchain, hn]
  · intro hc
    unfold buildURLState
    simp only [stepSearch_port, stepPathname_port]
    unfold stepPort
    rw [hc]
    simp
  · rw [userinfoString_eq_empty_iff, husername, hpassword]
    rw [← truthyS_false_iff o.username, ← truthyS_false_iff o.password]

/-- C8 witness: a full set of plain components produces the expected URL
state at a concrete input. -/
theorem spec_C8_witness :
    effectivePort (buildURLState c8opts) = some 8080
    ∧ (buildURLState c8opts).scheme = "https" := by
  have h := spec_C8_amended c8opts
    (by
      rintro p hp2
      have hps : p = "https" := (Option.some.inj hp2).symm
      subst hps
      exact ⟨by decide, by decide, by decide⟩)
    (by
      rintro n hn
      have hns : n = 8080 := (Option.some.inj hn).symm
      subst hns
      exact ⟨by decide, by decide⟩)
  constructor
  · have h5 := h.2.2.2.2.1 (by decide)
    exact h5.trans rfl
  · have h1 := h.1
    rw [h1]
    decide

end RecordScreen
